import Mathlib

/-!
Verification of the cc-sessions workflow state engine against its
specification.  The definitions below are a shallow embedding of
`cc_sessions/hooks/user-messages.py` (the trigger detector and the context
budget monitor) together with the parts of the mode controller and step
tracker the hook relies on.  Python strings are modelled as Lean `String`
(lists of Unicode code points); Python substring tests (`x in s`) are
modelled by an executable infix test on `String.data`; `str.lower` is
modelled ASCII-only (all configured phrases in the source are ASCII).
Machine floats in the 75%/90% threshold computation are modelled by exact
rationals.  JSONL transcript lines are modelled as `Option Entry`, `none`
standing for a line whose JSON parse fails.
-/

namespace CCSessions

/-! ### Generic executable string primitives -/

/-- Lexicographic "less than" on lists, parameterised by an element
comparison, mirroring Python's comparison of strings and tuples:
a proper prefix is smaller, otherwise the first differing position
decides. -/
def lexLtBy (lt : α → α → Bool) : List α → List α → Bool
  | [], [] => false
  | [], _ :: _ => true
  | _ :: _, [] => false
  | a :: as, b :: bs => if lt a b then true else if lt b a then false else lexLtBy lt as bs

/-- Code-point comparison of characters, as Python compares characters. -/
def charLt (a b : Char) : Bool := decide (a.toNat < b.toNat)

/-- Python string `<` / `>`: lexicographic by code point. -/
def strLt (a b : String) : Bool := lexLtBy charLt a.data b.data

/-- Does `needle` occur as a contiguous run inside `hay`?  Executable model
of Python's `needle in hay`. -/
def listInfix (needle : List Char) : List Char → Bool
  | [] => needle.isEmpty
  | c :: t => needle.isPrefixOf (c :: t) || listInfix needle t

/-- Python `needle in hay` on strings. -/
def strContains (hay needle : String) : Bool := listInfix needle.data hay.data

/-- Python `str.lower()`, modelled ASCII-only (`Char.toLower`); every phrase
the hook compares against is ASCII. -/
def lowerString (s : String) : String := String.mk (s.data.map Char.toLower)

/-- Python `str.strip()` (leading and trailing whitespace removed; modelled
with `Char.isWhitespace`, which covers the ASCII whitespace the hook can
meet in a command word). -/
def stripChars (l : List Char) : List Char :=
  ((l.dropWhile Char.isWhitespace).reverse.dropWhile Char.isWhitespace).reverse

/-! ### Mode controller (`shared_state`)

The `shared_state` module itself is not part of the sources; only its
callers are.  Its two entry points used by the hook are modelled from the
spec. -/

/-- The DAIC mode, spec section 3: one of `Discussion | Implementation`,
persisted as the sole contents of a dedicated record. -/
inductive Mode where
  | discussion
  | implementation
deriving DecidableEq, Repr

/-- Modelled from the spec: `shared_state.check_daic_mode_bool` (module not
under src/) reads the persisted mode record; the hook's guard comment
"only work in discussion mode" fixes the polarity: the result is `true`
exactly when the persisted mode is Discussion. -/
def check_daic_mode_bool (m : Mode) : Bool :=
  match m with
  | .discussion => true
  | .implementation => false

/-- Modelled from the spec: `shared_state.set_daic_mode` (module not under
src/) persists a new mode; the hook calls `set_daic_mode(True)` to "Force
discussion mode" and `set_daic_mode(False)` to "Switch to implementation". -/
def set_daic_mode (to_discussion : Bool) : Mode :=
  if to_discussion then .discussion else .implementation

/-! ### Configuration (`sessions-config.json` view used by the hook) -/

/-- Default trigger phrases when none are configured
(`DEFAULT_TRIGGER_PHRASES`, user-messages.py line 35). -/
def DEFAULT_TRIGGER_PHRASES : List String := ["make it so", "run that", "yert"]

/-- The slice of `sessions-config.json` the hook reads, with the `get`
fallbacks of the source applied on load: `api_mode` defaults to false,
`trigger_phrases` to `DEFAULT_TRIGGER_PHRASES`, `task_detection.enabled`
to true, and `memory_bank_mcp.enabled` (read at line 281) to false. -/
structure Config where
  api_mode : Bool
  trigger_phrases : List String
  task_detection_enabled : Bool
  memory_bank_enabled : Bool

/-- The configuration an installation with an absent or empty
`sessions-config.json` gets. -/
def default_config : Config := ⟨false, DEFAULT_TRIGGER_PHRASES, true, false⟩

/-! ### Detection conditions (user-messages.py lines 38-181) -/

/-- Line 39: `prompt.strip().startswith('/add-trigger')`. -/
def is_add_trigger_command (prompt : String) : Bool :=
  "/add-trigger".data.isPrefixOf (stripChars prompt.data)

/-- Line 122: `any(word in prompt for word in ["SILENCE", "STOP"])`;
case sensitive, on the raw prompt. -/
def emergency_match (prompt : String) : Bool :=
  ["SILENCE", "STOP"].any (fun word => strContains prompt word)

/-- Line 117: `any(phrase in prompt.lower() for phrase in trigger_phrases)`. -/
def trigger_match (prompt : String) (phrases : List String) : Bool :=
  phrases.any (fun phrase => strContains (lowerString prompt) phrase)

/-- Line 117 guard: implementation triggers fire only outside an
`/add-trigger` command, only in discussion mode, on a phrase match. -/
def impl_fires (prompt : String) (cfg : Config) (mode0 : Mode) : Bool :=
  !is_add_trigger_command prompt && check_daic_mode_bool mode0
    && trigger_match prompt cfg.trigger_phrases

/-- Line 127: `"iterloop" in prompt.lower()`. -/
def iterloop_match (prompt : String) : Bool :=
  strContains (lowerString prompt) "iterloop"

/-- Line 134 phrase set. -/
def compaction_match (prompt : String) : Bool :=
  ["compact", "restart session", "context compaction"].any
    (fun phrase => strContains (lowerString prompt) phrase)

/-- Lines 138-139 phrase set. -/
def completion_match (prompt : String) : Bool :=
  ["complete the task", "finish the task", "task is done",
   "mark as complete", "close the task", "wrap up the task"].any
    (fun phrase => strContains (lowerString prompt) phrase)

/-- Lines 143-144 phrase set. -/
def creation_match (prompt : String) : Bool :=
  ["create a new task", "create a task", "make a task",
   "new task for", "add a task"].any
    (fun phrase => strContains (lowerString prompt) phrase)

/-- Line 148 phrase set. -/
def switching_match (prompt : String) : Bool :=
  ["switch to task", "work on task", "change to task"].any
    (fun phrase => strContains (lowerString prompt) phrase)

/-- Lines 153-160: the six `(?i)` task-mention regexes.  Each regex is a
case-insensitive alternation of literals, expanded here to the list of its
alternatives; `re.search` with `(?i)` is then exactly a substring test of
the lower-cased prompt. -/
def task_patterns_expanded : List String :=
  (["should", "need to", "have to"].flatMap fun m =>
    ["implement", "fix", "refactor", "migrate", "test", "research"].map fun v =>
      "we " ++ m ++ " " ++ v)
  ++ ["create a task for"]
  ++ (["task list", "todo", "backlog"].map fun x => "add this to the " ++ x)
  ++ (["need to", "have to"].flatMap fun m =>
      ["do", "handle", "address"].flatMap fun v =>
        ["this", "that"].map fun o =>
          "we\x27ll " ++ m ++ " " ++ v ++ " " ++ o ++ " later")
  ++ (["task", "issue", "problem"].map fun x => "that\x27s a separate " ++ x)
  ++ (["bug", "task", "issue"].map fun x => "file this as a " ++ x)

/-- Line 162: `any(re.search(pattern, prompt) for pattern in task_patterns)`. -/
def task_mention_match (prompt : String) : Bool :=
  task_patterns_expanded.any (fun phrase => strContains (lowerString prompt) phrase)

/-! ### Annotation texts emitted by the hook -/

def ULTRATHINK : String := "[[ ultrathink ]]\n"

def IMPLEMENTATION_MSG : String :=
  "[DAIC: Implementation Mode Activated] You may now implement ONLY the immediately discussed steps. DO NOT take **any** actions beyond what was explicitly agreed upon. If instructions were vague, consider the bounds of what was requested and *DO NOT* cross them. When you\x27re done, run the command: daic\n"

def EMERGENCY_MSG : String :=
  "[DAIC: EMERGENCY STOP] All tools locked. You are now in discussion mode. Re-align with your pair programmer.\n"

def ITERLOOP_MSG : String :=
  "You have been instructed to iteratively loop over a list. Identify what list the user is referring to, then follow this loop: present one item, wait for the user to respond with questions and discussion points, only continue to the next item when the user explicitly says \x27continue\x27 or something similar\n"

def COMPACTION_MSG : String :=
  "If the user is asking to compact context, read and follow sessions/protocols/context-compaction.md protocol.\n"

def COMPLETION_MSG : String :=
  "If the user is asking to complete the task, read and follow sessions/protocols/task-completion.md protocol.\n"

def CREATION_MSG : String :=
  "If the user is asking to create a task, read and follow sessions/protocols/task-creation.md protocol.\n"

def SWITCHING_MSG : String :=
  "If the user is asking to switch tasks, read and follow sessions/protocols/task-startup.md protocol.\n"

/-- Lines 166-181; the bullet of the source file is the literal three-code-point
sequence U+201A U+00C4 U+00A2. -/
def TASK_NOTICE : String :=
  "\n[Task Detection Notice]\nThe message may reference something that could be a task.\n\nIF you or the user have discovered a potential task that is sufficiently unrelated to the current task, ask if they\x27d like to create a task file.\n\nTasks are:\n‚Ä¢ More than a couple commands to complete\n‚Ä¢ Semantically distinct units of work\n‚Ä¢ Work that takes meaningful context\n‚Ä¢ Single focused goals (not bundled multiple goals)\n‚Ä¢ Things that would take multiple days should be broken down\n‚Ä¢ NOT subtasks of current work (those go in the current task file/directory)\n\nIf they want to create a task, follow the task creation protocol.\n"

/-! ### Smart suggestions (`add_smart_suggestions`, lines 230-308)

Contextual tips appended to the same printed context after every
detector.  They read two further pieces of state: the stale discussion
flag captured at line 114 and the truthiness of the `task` field of the
persisted current-task record (`shared_state.get_task_state`; the module
is not under src/, the record is described in the spec's
external-interfaces section), modelled as a Bool input `has_task`.  The
companion `update_usage_stats_for_user_input` (lines 184-228, called at
line 303) writes only the usage-statistics record and touches neither the
output context, the mode record, nor the warning flags; it is not
modelled. -/

/-- Line 241 phrase set. -/
def first_time_match (prompt : String) : Bool :=
  ["how do i", "what should i", "what\x27s next", "help me"].any
    (fun phrase => strContains (lowerString prompt) phrase)

/-- Line 243 tip text. -/
def TIP_CREATE_TASK : String :=
  "\nüí° Tip: Start by creating a task with \x27create a new task\x27 or try \x27/tutorial\x27 for a guided walkthrough.\n"

/-- The f-string of line 245, around `trigger_phrases[0]`. -/
def TIP_DISCUSSION_MODE (p : String) : String :=
  "\nüí° Tip: You\x27re in discussion mode. Describe your approach, then say a trigger phrase like \x27" ++ p ++ "\x27 to implement.\n"

/-- Lines 248-253: help-seeking (pattern, suggestion) pairs; only the
first matching pair is appended (the loop breaks). -/
def help_patterns : List (String × String) :=
  [("can you", "üîç Exploring capabilities? Try `/help` to see what\x27s available."),
   ("stuck", "üÜò Need help? Use `/status` to see current state or `/help troubleshoot` for common issues."),
   ("confused", "üß≠ Lost? Use `/status` for your bearings and `/help workflow` to understand DAIC."),
   ("not working", "üîß Something broken? Check `/help troubleshoot` for solutions.")]

/-- Line 261 phrase set. -/
def agents_match (prompt : String) : Bool :=
  ["analyze", "review", "understand", "examine", "investigate"].any
    (fun phrase => strContains (lowerString prompt) phrase)

/-- Line 263 tip text. -/
def TIP_AGENT : String :=
  "\nüí° Tip: For deep code analysis, try \x27Use the context-gathering agent on [file/task]\x27.\n"

/-- Lines 266-272: feature-opportunity (patterns, suggestion) pairs; only
the first pair with a matching pattern is appended (the loop breaks). -/
def feature_opportunities : List (List String × String) :=
  [(["multiple files", "many files", "several files"],
    "üìÅ Working with many files? Try the context-gathering agent for comprehensive analysis."),
   (["complex project", "big project", "large project"],
    "üß† Complex project? Consider Memory Bank (`/help memory`) for persistent context."),
   (["step by step", "phases", "multiple steps"],
    "üèóÔ∏è Multi-step work? Try `/build-project` for structured project management."),
   (["review", "check", "quality"],
    "üîç Need code review? Try the code-review agent for quality analysis."),
   (["document", "docs", "documentation"],
    "üìö Need docs? Try the service-documentation agent for structured documentation.")]

/-- Line 280 phrase set. -/
def memory_recall_match (prompt : String) : Bool :=
  ["remember", "previous", "last time", "before"].any
    (fun phrase => strContains (lowerString prompt) phrase)

/-- Line 282 tip text. -/
def TIP_MEMORY_BANK : String :=
  "\nüí° Tip: Enable Memory Bank to preserve insights across sessions. Run \x27/sync-status\x27 to check setup.\n"

/-- Line 285 phrase set. -/
def status_query_match (prompt : String) : Bool :=
  ["what mode", "current state", "where am i"].any
    (fun phrase => strContains (lowerString prompt) phrase)

/-- Line 286 tip text. -/
def TIP_STATUS : String :=
  "\nüí° Tip: Run \x27/status\x27 to see your current mode, task, and available commands.\n"

/-- Line 289 phrase set. -/
def buildproject_match (prompt : String) : Bool :=
  ["big task", "multiple steps", "complex project", "roadmap"].any
    (fun phrase => strContains (lowerString prompt) phrase)

/-- Line 290 tip text. -/
def TIP_BUILD_PROJECT : String :=
  "\nüí° Tip: For multi-phase projects, try \x27/build-project\x27 for structured planning.\n"

/-- Line 293 phrase set. -/
def completion_words_match (prompt : String) : Bool :=
  ["done", "finished", "completed", "commit"].any
    (fun phrase => strContains (lowerString prompt) phrase)

/-- Line 294 tip text. -/
def TIP_CODE_REVIEW : String :=
  "\nüí° Tip: Before committing, consider using the code-review agent to check your work.\n"

/-- Lines 240-245: the first-time-user block.  `none` models the
`IndexError` raised by `trigger_phrases[0]` on an empty configured phrase
list; the enclosing `except` then returns the text accumulated so far —
nothing, since this is the first block. -/
def first_time_block (prompt : String) (cfg : Config) (current_mode has_task : Bool) :
    Option String :=
  if first_time_match prompt then
    if !has_task then some TIP_CREATE_TASK
    else if current_mode then
      match cfg.trigger_phrases with
      | [] => none
      | p :: _ => some (TIP_DISCUSSION_MODE p)
    else some ""
  else some ""

/-- `add_smart_suggestions` (lines 230-300): the tips gathered for one
prompt, blocks in source order, each appending its text.  The only
exception reachable from the modelled inputs is the line 245 `IndexError`
handled in `first_time_block`; a storage failure in `get_task_state`
(outside the modelled inputs) would likewise make the except clause
return the accumulated text. -/
def smart_suggestions (prompt : String) (cfg : Config) (current_mode has_task : Bool) :
    String :=
  match first_time_block prompt cfg current_mode has_task with
  | none => ""
  | some s0 =>
    let s1 := s0 ++
      (match help_patterns.find? (fun pr => strContains (lowerString prompt) pr.1) with
        | some pr => "\n" ++ pr.2 ++ "\n"
        | none => "")
    let s2 := s1 ++
      (if agents_match prompt && !strContains (lowerString prompt) "context-gathering"
       then TIP_AGENT else "")
    let s3 := s2 ++
      (match feature_opportunities.find?
          (fun pr => pr.1.any (fun phrase => strContains (lowerString prompt) phrase)) with
        | some pr => "\n" ++ pr.2 ++ "\n"
        | none => "")
    let s4 := s3 ++
      (if memory_recall_match prompt && !cfg.memory_bank_enabled then TIP_MEMORY_BANK
       else "")
    let s5 := s4 ++ (if status_query_match prompt then TIP_STATUS else "")
    let s6 := s5 ++ (if buildproject_match prompt then TIP_BUILD_PROJECT else "")
    s6 ++ (if has_task && completion_words_match prompt then TIP_CODE_REVIEW else "")

/-! ### Context budget monitor (lines 46-111) -/

/-- Usage counters of one transcript entry; an absent counter is the
source's `.get(..., 0)` default, hence 0 here. -/
structure Usage where
  input_tokens : Nat
  cache_read_input_tokens : Nat
  cache_creation_input_tokens : Nat
deriving DecidableEq, Repr

/-- One parsed JSONL transcript entry: `isSidechain` defaults to false,
`timestamp` is absent when the key is missing, `usage` is absent when
`message.usage` is missing or empty (both falsy in the source's check). -/
structure Entry where
  isSidechain : Bool
  timestamp : Option String
  usage : Option Usage
deriving DecidableEq, Repr

/-- Line 79-83 sum (also the spec's "sum its three counters"). -/
def usage_total (u : Usage) : Nat :=
  u.input_tokens + u.cache_read_input_tokens + u.cache_creation_input_tokens

/-- Loop body of lines 60-75: the accumulator is the pair
`(most_recent_timestamp, most_recent_usage)`.  A `none` line is a line
whose `json.loads` raises (skipped); side-chain entries are skipped;
an entry contributes only when it has usage data and a truthy (present,
non-empty) timestamp that is strictly later than the current one
(Python string `>`). -/
def scan (acc : Option String × Option Usage) (line : Option Entry) :
    Option String × Option Usage :=
  match line with
  | none => acc
  | some e =>
    if e.isSidechain then acc
    else
      match e.usage with
      | none => acc
      | some u =>
        match e.timestamp with
        | none => acc
        | some t =>
          let newer :=
            match acc.1 with
            | none => true
            | some m => strLt m t
          if t != "" && newer then (some t, some u) else acc

/-- `get_context_length_from_transcript` (lines 46-87): `none` models a
`transcript_path` that does not exist (return 0); otherwise fold the scan
over all lines and sum the three counters of the selected usage record,
0 when none was selected. -/
def get_context_length_from_transcript (transcript : Option (List (Option Entry))) : Nat :=
  match transcript with
  | none => 0
  | some lines =>
    match (lines.foldl scan (none, none)).2 with
    | none => 0
    | some u => usage_total u

/-- Line 95: `(context_length / 160000) * 100`, exact-rational model of the
float computation. -/
def usable_percentage (cl : Nat) : ℚ := (cl : ℚ) / 160000 * 100

/-- Digit grouping of Python's `{n:,}` format: commas every three digits
from the right (input and output here are the reversed digit list). -/
def group3 : List Char → List Char
  | d1 :: d2 :: d3 :: d4 :: rest => d1 :: d2 :: d3 :: ',' :: group3 (d4 :: rest)
  | l => l

/-- Python `f"{n:,}"` for a natural number. -/
def format_comma (n : Nat) : String :=
  String.mk (group3 ((Nat.toDigits 10 n).reverse)).reverse

/-- Round to the nearest integer, ties to even — the rounding of Python's
fixed-point float formatting, applied here to the exact rational. -/
def round_half_even (x : ℚ) : ℤ :=
  let f := x.floor
  let r := x - f
  if r < 1 / 2 then f
  else if 1 / 2 < r then f + 1
  else if f % 2 = 0 then f else f + 1

/-- Python `f"{q:.1f}"` for the (non-negative) usage percentage. -/
def format_1f (q : ℚ) : String :=
  let n := (round_half_even (q * 10)).toNat
  String.mk (Nat.toDigits 10 (n / 10)) ++ "." ++ String.mk (Nat.toDigits 10 (n % 10))

/-- The f-string of line 105. -/
def warn90_text (cl : Nat) : String :=
  "\n[90% WARNING] " ++
    (format_comma cl ++ "/160,000 tokens used (" ++ format_1f (usable_percentage cl) ++
      "%). CRITICAL: Run sessions/protocols/task-completion.md to wrap up this task cleanly!\n")

/-- The f-string of line 109. -/
def warn75_text (cl : Nat) : String :=
  "\n[75% WARNING] " ++
    (format_comma cl ++ "/160,000 tokens used (" ++ format_1f (usable_percentage cl) ++
      "%). Context is getting low. Be aware of coming context compaction trigger.\n")

/-- Outcome of one monitor run: the warning text appended to the context
(empty when no warning fires) and the persisted state of the two flag
files after the run. -/
structure WarnResult where
  text : String
  warned75 : Bool
  warned90 : Bool
deriving DecidableEq, Repr

/-- Lines 93-111: nothing happens on a zero context length; otherwise the
90% branch fires when the percentage reaches 90 and the 90-flag file does
not exist (creating it), else the 75% branch under the same conditions for
its own flag. -/
def context_warning_step (cl : Nat) (w75 w90 : Bool) : WarnResult :=
  if 0 < cl then
    if 90 ≤ usable_percentage cl ∧ w90 = false then ⟨warn90_text cl, w75, true⟩
    else if 75 ≤ usable_percentage cl ∧ w75 = false then ⟨warn75_text cl, true, w90⟩
    else ⟨"", w75, w90⟩
  else ⟨"", w75, w90⟩

/-! ### The user-messages hook, top to bottom -/

/-- Lines 116-124: the two mode-changing rules, in source order — first the
implementation trigger (reading the mode captured at line 114), then the
emergency stop, each appending its annotation and writing the mode record. -/
def daic_stage (prompt : String) (cfg : Config) (mode0 : Mode) (ctx : String) :
    String × Mode :=
  let s1 :=
    if impl_fires prompt cfg mode0 then (ctx ++ IMPLEMENTATION_MSG, set_daic_mode false)
    else (ctx, mode0)
  if emergency_match prompt then (s1.1 ++ EMERGENCY_MSG, set_daic_mode true) else s1

/-- Lines 126-181: the advisory detectors, in source order — iterloop, then
the four protocol phrase sets, then the task-mention patterns (gated by the
`task_detection.enabled` toggle).  Each only appends text. -/
def topical_stage (prompt : String) (cfg : Config) (ctx : String) : String :=
  let c1 := if iterloop_match prompt then ctx ++ ITERLOOP_MSG else ctx
  let c2 := if compaction_match prompt then c1 ++ COMPACTION_MSG else c1
  let c3 := if completion_match prompt then c2 ++ COMPLETION_MSG else c2
  let c4 := if creation_match prompt then c3 ++ CREATION_MSG else c3
  let c5 := if switching_match prompt then c4 ++ SWITCHING_MSG else c4
  if cfg.task_detection_enabled && task_mention_match prompt then c5 ++ TASK_NOTICE else c5

/-- Result of one hook invocation: the `additionalContext` string printed
at lines 310-318 (empty means nothing is printed), the persisted mode
record, and the two warning flag files. -/
structure HookResult where
  context : String
  mode : Mode
  warned75 : Bool
  warned90 : Bool
deriving DecidableEq, Repr

/-- The whole hook (user-messages.py module body), as a function of the
inbound prompt, the loaded configuration, the transcript (`none` when
`transcript_path` is empty or does not exist), the availability of
`tiktoken`, and the persisted state (mode record, current-task presence,
warning flags).  After the detectors, lines 305-308 append the smart
suggestions to the same context (`if smart_suggestions:` guards the
append, but appending the empty string is the identity, so the append is
unconditional here); the usage-statistics update at line 303 writes only
the usage-stats record and is not modelled. -/
def user_messages_hook (prompt : String) (cfg : Config)
    (transcript : Option (List (Option Entry))) (tiktokenAvailable : Bool)
    (mode0 : Mode) (has_task : Bool) (w75 w90 : Bool) : HookResult :=
  let ctx := if !cfg.api_mode && !is_add_trigger_command prompt then ULTRATHINK else ""
  let warn :=
    if tiktokenAvailable && transcript.isSome then
      context_warning_step (get_context_length_from_transcript transcript) w75 w90
    else ⟨"", w75, w90⟩
  let dm := daic_stage prompt cfg mode0 (ctx ++ warn.text)
  let ctx2 := topical_stage prompt cfg dm.1
  let ctx3 := ctx2 ++ smart_suggestions prompt cfg (check_daic_mode_bool mode0) has_task
  ⟨ctx3, dm.2, warn.warned75, warn.warned90⟩

/-! ### Rule contributions, used to state what each rule appends -/

/-- Ultrathink preamble contribution (lines 42-43). -/
def ultra_part (prompt : String) (cfg : Config) : String :=
  if !cfg.api_mode && !is_add_trigger_command prompt then ULTRATHINK else ""

/-- Monitor contribution (lines 89-111). -/
def warn_result (transcript : Option (List (Option Entry))) (tiktokenAvailable : Bool)
    (w75 w90 : Bool) : WarnResult :=
  if tiktokenAvailable && transcript.isSome then
    context_warning_step (get_context_length_from_transcript transcript) w75 w90
  else ⟨"", w75, w90⟩

/-- Implementation-trigger contribution. -/
def impl_part (prompt : String) (cfg : Config) (mode0 : Mode) : String :=
  if impl_fires prompt cfg mode0 then IMPLEMENTATION_MSG else ""

/-- Emergency-stop contribution. -/
def emerg_part (prompt : String) : String :=
  if emergency_match prompt then EMERGENCY_MSG else ""

/-- Iteration-loop contribution. -/
def iter_part (prompt : String) : String :=
  if iterloop_match prompt then ITERLOOP_MSG else ""

/-- Context-compaction detector contribution. -/
def compaction_part (prompt : String) : String :=
  if compaction_match prompt then COMPACTION_MSG else ""

/-- Task-completion detector contribution. -/
def completion_part (prompt : String) : String :=
  if completion_match prompt then COMPLETION_MSG else ""

/-- Task-creation detector contribution. -/
def creation_part (prompt : String) : String :=
  if creation_match prompt then CREATION_MSG else ""

/-- Task-switching detector contribution. -/
def switching_part (prompt : String) : String :=
  if switching_match prompt then SWITCHING_MSG else ""

/-- Task-mention detector contribution. -/
def task_part (prompt : String) (cfg : Config) : String :=
  if cfg.task_detection_enabled && task_mention_match prompt then TASK_NOTICE else ""

/-- Everything the advisory detectors (rules after the two mode rules)
append, in source order. -/
def topical_tail (prompt : String) (cfg : Config) : String :=
  iter_part prompt ++ compaction_part prompt ++ completion_part prompt ++
    creation_part prompt ++ switching_part prompt ++ task_part prompt cfg

/-- Smart-suggestions contribution, appended after every detector; the
discussion flag it reads is the stale one captured at line 114, i.e. the
mode at hook entry. -/
def tips_part (prompt : String) (cfg : Config) (mode0 : Mode) (has_task : Bool) : String :=
  smart_suggestions prompt cfg (check_daic_mode_bool mode0) has_task

/-- The mode record after one hook run: the emergency write at line 123
comes last, so it wins over the implementation write at line 118. -/
def daic_mode_result (prompt : String) (cfg : Config) (mode0 : Mode) : Mode :=
  if emergency_match prompt then .discussion
  else if impl_fires prompt cfg mode0 then .implementation
  else mode0

/-! ### Spec-side view of the context-length selection

The spec describes the selection declaratively: drop side-chain entries,
keep only entries carrying usage data and a (truthy) timestamp, and take
the usage of the entry with the latest timestamp.  `valid_entry` and
`latest_entry` below follow these words; the theorem for C3 proves the
source's fold equal to this description. -/

/-- The spec's candidate entries: main-chain, usage-carrying, with a
present non-empty timestamp, projected to (timestamp, usage). -/
def valid_entry (line : Option Entry) : Option (String × Usage) :=
  match line with
  | none => none
  | some e =>
    if e.isSidechain then none
    else
      match e.usage with
      | none => none
      | some u =>
        match e.timestamp with
        | none => none
        | some t => if t != "" then some (t, u) else none

/-- Keep whichever of the current candidate and the next entry has the
later timestamp; on a tie the earlier entry is kept. -/
def select_later (acc : Option (String × Usage)) (p : String × Usage) :
    Option (String × Usage) :=
  match acc with
  | none => some p
  | some a => if strLt a.1 p.1 then some p else some a

/-- The candidate with the latest timestamp (first among equals). -/
def latest_entry (entries : List (String × Usage)) : Option (String × Usage) :=
  entries.foldl select_later none

/-- Spec-side context length: sum the three counters of the latest
candidate entry, 0 when there is none. -/
def spec_context_length (lines : List (Option Entry)) : Nat :=
  match latest_entry (lines.filterMap valid_entry) with
  | none => 0
  | some p => usage_total p.2

/-! ### Step tracker ordering (spec sections 3, 4.4, 8)

The step tracker itself (the `/build-project` scripts) is not among the
source files; only the spec describes it.  The dotted-id ordering and the
next-step suggestion are modelled from the spec. -/

/-- Python `s.split('.')` on the character list. -/
def split_dots : List Char → List (List Char)
  | [] => [[]]
  | c :: rest =>
    if c = '.' then [] :: split_dots rest
    else
      match split_dots rest with
      | [] => [[c]]
      | g :: gs => (c :: g) :: gs

/-- Numeric value of one dotted component (components of well-formed step
ids are decimal digit runs). -/
def digits_to_nat (l : List Char) : Nat :=
  l.foldl (fun n c => n * 10 + (c.toNat - 48)) 0

/-- Modelled from the spec: "ordering is defined by splitting on `.` and
comparing integer tuples lexicographically" — the integer tuple of a
dotted step id. -/
def step_key (id : String) : List Nat :=
  (split_dots id.data).map digits_to_nat

/-- Lexicographic comparison of integer tuples (Python tuple `<`). -/
def key_lt (a b : List Nat) : Bool := lexLtBy (fun x y => decide (x < y)) a b

/-- Modelled from the spec: the step order `"2.9" < "2.10"` used for
sorting and next-step suggestion. -/
def step_lt (a b : String) : Bool := key_lt (step_key a) (step_key b)

/-- Non-strict form of `step_lt`, the sort relation. -/
def step_le (a b : String) : Prop := step_lt b a = false

instance : DecidableRel step_le := fun a b => Bool.decEq (step_lt b a) false

/-- Modelled from the spec: "sorts steps by dotted-tuple order". -/
def sort_steps (ids : List String) : List String :=
  ids.insertionSort step_le

/-- Modelled from the spec: "suggests the next lexicographically-ordered
incomplete step by dotted order" — the first not-yet-completed id in
dotted-tuple order. -/
def next_incomplete_step (ids completed : List String) : Option String :=
  (sort_steps (ids.filter (fun i => !completed.contains i))).head?

/-! ### Occurrence index, used to state in which order annotations appear -/

/-- Index of the first occurrence of `needle` in `hay`, if any. -/
def firstIdxOfInfix (needle : List Char) : List Char → Option Nat
  | [] => if needle.isEmpty then some 0 else none
  | c :: t =>
    if needle.isPrefixOf (c :: t) then some 0
    else (firstIdxOfInfix needle t).map (· + 1)

/-- Does `a` occur in `hay` strictly before `b` does (both occurring)? -/
def occursBefore (a b hay : String) : Bool :=
  match firstIdxOfInfix a.data hay.data, firstIdxOfInfix b.data hay.data with
  | some i, some j => decide (i < j)
  | _, _ => false

/-! ### String append facts used throughout -/

theorem str_append_empty (s : String) : s ++ "" = s := by
  apply String.ext
  simp [String.data_append]

theorem str_empty_append (s : String) : "" ++ s = s := by
  apply String.ext
  simp [String.data_append]

theorem str_append_assoc (a b c : String) : a ++ b ++ c = a ++ (b ++ c) := by
  apply String.ext
  simp [String.data_append]

theorem append_ne_of_prefix_ne (p q a b : String)
    (hlen : p.data.length = q.data.length) (hne : p.data ≠ q.data) :
    p ++ a ≠ q ++ b := by
  intro h
  have hd : p.data ++ a.data = q.data ++ b.data := by
    simpa [String.data_append] using congrArg String.data h
  exact hne (List.append_inj hd hlen).1

theorem append_ne_empty (p a : String) (hp : p.data ≠ []) : p ++ a ≠ "" := by
  intro h
  have hd : p.data ++ a.data = [] := by
    simpa [String.data_append] using congrArg String.data h
  exact hp (List.append_eq_nil.mp hd).1

theorem warn75_ne_warn90 (a b : Nat) : warn75_text a ≠ warn90_text b := by
  unfold warn75_text warn90_text
  exact append_ne_of_prefix_ne _ _ _ _ (by decide) (by decide)

theorem warn90_ne_empty (a : Nat) : warn90_text a ≠ "" := by
  unfold warn90_text
  exact append_ne_empty _ _ (by decide)

theorem warn75_ne_empty (a : Nat) : warn75_text a ≠ "" := by
  unfold warn75_text
  exact append_ne_empty _ _ (by decide)

/-! ### Decomposition of the hook output into rule contributions -/

theorem daic_stage_eq (prompt : String) (cfg : Config) (mode0 : Mode) (ctx : String) :
    daic_stage prompt cfg mode0 ctx =
      (ctx ++ impl_part prompt cfg mode0 ++ emerg_part prompt,
        daic_mode_result prompt cfg mode0) := by
  unfold daic_stage impl_part emerg_part daic_mode_result
  cases him : impl_fires prompt cfg mode0 <;> cases hem : emergency_match prompt <;>
    simp [set_daic_mode, str_append_empty]

theorem topical_stage_eq (prompt : String) (cfg : Config) (ctx : String) :
    topical_stage prompt cfg ctx = ctx ++ topical_tail prompt cfg := by
  unfold topical_stage topical_tail iter_part compaction_part completion_part
    creation_part switching_part task_part
  cases h1 : iterloop_match prompt <;> cases h2 : compaction_match prompt <;>
    cases h3 : completion_match prompt <;> cases h4 : creation_match prompt <;>
    cases h5 : switching_match prompt <;>
    cases h6 : (cfg.task_detection_enabled && task_mention_match prompt) <;>
    simp [str_append_empty, str_append_assoc]

theorem hook_context_eq (prompt : String) (cfg : Config)
    (tr : Option (List (Option Entry))) (tik : Bool) (mode0 : Mode)
    (has_task : Bool) (w75 w90 : Bool) :
    (user_messages_hook prompt cfg tr tik mode0 has_task w75 w90).context =
      ultra_part prompt cfg ++ (warn_result tr tik w75 w90).text ++
        impl_part prompt cfg mode0 ++ emerg_part prompt ++ topical_tail prompt cfg ++
        tips_part prompt cfg mode0 has_task := by
  unfold user_messages_hook ultra_part warn_result tips_part
  simp only [daic_stage_eq, topical_stage_eq]

theorem hook_mode_eq (prompt : String) (cfg : Config)
    (tr : Option (List (Option Entry))) (tik : Bool) (mode0 : Mode)
    (has_task : Bool) (w75 w90 : Bool) :
    (user_messages_hook prompt cfg tr tik mode0 has_task w75 w90).mode =
      daic_mode_result prompt cfg mode0 := by
  unfold user_messages_hook
  simp only [daic_stage_eq]

theorem hook_flags_eq (prompt : String) (cfg : Config)
    (tr : Option (List (Option Entry))) (tik : Bool) (mode0 : Mode)
    (has_task : Bool) (w75 w90 : Bool) :
    (user_messages_hook prompt cfg tr tik mode0 has_task w75 w90).warned75 =
        (warn_result tr tik w75 w90).warned75 ∧
      (user_messages_hook prompt cfg tr tik mode0 has_task w75 w90).warned90 =
        (warn_result tr tik w75 w90).warned90 := by
  unfold user_messages_hook warn_result
  exact ⟨rfl, rfl⟩

theorem warn_result_none (tik : Bool) (w75 w90 : Bool) :
    warn_result none tik w75 w90 = ⟨"", w75, w90⟩ := by
  cases tik <;> rfl

theorem impl_fires_implementation (prompt : String) (cfg : Config) :
    impl_fires prompt cfg Mode.implementation = false := by
  unfold impl_fires check_daic_mode_bool
  simp

/-! ### Order facts about the code-point comparison -/

theorem lexChar_irrefl : ∀ l : List Char, lexLtBy charLt l l = false := by
  intro l
  induction l with
  | nil => rfl
  | cons a as ih =>
    unfold lexLtBy
    simp [charLt, ih]

theorem lexChar_asymm : ∀ l m : List Char,
    lexLtBy charLt l m = true → lexLtBy charLt m l = false := by
  intro l
  induction l with
  | nil =>
    intro m h
    cases m with
    | nil => simp [lexLtBy] at h
    | cons b bs => rfl
  | cons a as ih =>
    intro m h
    cases m with
    | nil => simp [lexLtBy] at h
    | cons b bs =>
      unfold lexLtBy at h ⊢
      by_cases hab : a.toNat < b.toNat
      · have h1 : charLt a b = true := by simp [charLt, hab]
        have h2 : charLt b a = false := by simp [charLt]; omega
        rw [h2, h1]
        simp
      · have h1 : charLt a b = false := by simp [charLt, hab]
        rw [h1] at h
        by_cases hba : b.toNat < a.toNat
        · have h2 : charLt b a = true := by simp [charLt, hba]
          rw [h2] at h
          simp at h
        · have h2 : charLt b a = false := by simp [charLt, hba]
          rw [h2] at h
          simp at h
          rw [h2, h1]
          simp [ih bs h]

theorem lexChar_nlt_trans : ∀ l m k : List Char,
    lexLtBy charLt l m = false → lexLtBy charLt m k = false →
    lexLtBy charLt l k = false := by
  intro l
  induction l with
  | nil =>
    intro m k h1 h2
    cases m with
    | nil => exact h2
    | cons b bs => simp [lexLtBy] at h1
  | cons a as ih =>
    intro m k h1 h2
    cases m with
    | nil =>
      cases k with
      | nil => rfl
      | cons c cs => simp [lexLtBy] at h2
    | cons b bs =>
      cases k with
      | nil => rfl
      | cons c cs =>
        unfold lexLtBy at h1 h2 ⊢
        by_cases hab : a.toNat < b.toNat
        · simp [charLt, hab] at h1
        · by_cases hbc : b.toNat < c.toNat
          · simp [charLt, hbc] at h2
          · have hab' : charLt a b = false := by simp [charLt]; omega
            have hbc' : charLt b c = false := by simp [charLt]; omega
            rw [hab'] at h1
            rw [hbc'] at h2
            simp at h1 h2
            by_cases hba : b.toNat < a.toNat
            · by_cases hcb : c.toNat < b.toNat
              · have h3 : charLt a c = false := by simp [charLt]; omega
                have h4 : charLt c a = true := by simp [charLt]; omega
                rw [h3, h4]
                simp
              · have h3 : charLt a c = false := by simp [charLt]; omega
                have h4 : charLt c a = true := by simp [charLt]; omega
                rw [h3, h4]
                simp
            · by_cases hcb : c.toNat < b.toNat
              · have h3 : charLt a c = false := by simp [charLt]; omega
                have h4 : charLt c a = true := by simp [charLt]; omega
                rw [h3, h4]
                simp
              · have h3 : charLt a c = false := by simp [charLt]; omega
                have h4 : charLt c a = false := by simp [charLt]; omega
                have hba' : charLt b a = false := by simp [charLt]; omega
                have hcb' : charLt c b = false := by simp [charLt]; omega
                rw [hba'] at h1
                rw [hcb'] at h2
                simp at h1 h2
                rw [h3, h4]
                simp [ih bs cs h1 h2]

theorem strLt_irrefl (s : String) : strLt s s = false := lexChar_irrefl s.data

theorem strLt_asymm {s t : String} (h : strLt s t = true) : strLt t s = false :=
  lexChar_asymm _ _ h

theorem strLt_nlt_trans {s t u : String} (h1 : strLt s t = false)
    (h2 : strLt t u = false) : strLt s u = false :=
  lexChar_nlt_trans _ _ _ h1 h2

theorem strLt_lt_of_lt_of_nlt {s t u : String} (h1 : strLt s t = true)
    (h2 : strLt u t = false) : strLt s u = true := by
  cases hx : strLt s u with
  | true => rfl
  | false => exact absurd (strLt_nlt_trans hx h2) (by simp [h1])

/-! ### The code's fold equals the spec's latest-entry selection -/

theorem scan_none (acc : Option String × Option Usage) : scan acc none = acc := rfl

theorem scan_eq_select (acc : Option (String × Usage)) (line : Option Entry) :
    scan (acc.map Prod.fst, acc.map Prod.snd) line =
      ((match valid_entry line with
          | none => acc
          | some p => select_later acc p).map Prod.fst,
        (match valid_entry line with
          | none => acc
          | some p => select_later acc p).map Prod.snd) := by
  cases line with
  | none => rfl
  | some e =>
    rcases e with ⟨sc, ts, us⟩
    cases sc with
    | true => rfl
    | false =>
      cases us with
      | none => rfl
      | some u =>
        cases ts with
        | none => rfl
        | some t =>
          cases ht : (t != "") with
          | false => simp [scan, valid_entry, ht]
          | true =>
            cases acc with
            | none => simp [scan, valid_entry, select_later, ht]
            | some a =>
              cases hlt : strLt a.1 t with
              | true => simp [scan, valid_entry, select_later, ht, hlt]
              | false => simp [scan, valid_entry, select_later, ht, hlt]

theorem foldl_scan_eq (lines : List (Option Entry)) :
    ∀ acc : Option (String × Usage),
      lines.foldl scan (acc.map Prod.fst, acc.map Prod.snd) =
        (((lines.filterMap valid_entry).foldl select_later acc).map Prod.fst,
          ((lines.filterMap valid_entry).foldl select_later acc).map Prod.snd) := by
  induction lines with
  | nil => intro acc; rfl
  | cons l ls ih =>
    intro acc
    rw [List.foldl_cons, scan_eq_select]
    cases hv : valid_entry l with
    | none =>
      simp only [List.filterMap_cons, hv]
      exact ih acc
    | some p =>
      simp only [List.filterMap_cons, hv, List.foldl_cons]
      exact ih (select_later acc p)

theorem context_length_code_eq_spec (lines : List (Option Entry)) :
    get_context_length_from_transcript (some lines) = spec_context_length lines := by
  have h := foldl_scan_eq lines none
  simp only [Option.map_none'] at h
  simp only [get_context_length_from_transcript, spec_context_length, latest_entry, h]
  cases hres : (lines.filterMap valid_entry).foldl select_later none with
  | none => rfl
  | some p => rfl

theorem foldl_select_spec (entries : List (String × Usage)) :
    ∀ a : String × Usage,
      ∃ p, entries.foldl select_later (some a) = some p ∧
        (p = a ∨ p ∈ entries) ∧ strLt p.1 a.1 = false ∧
        ∀ q ∈ entries, strLt p.1 q.1 = false := by
  induction entries with
  | nil =>
    intro a
    exact ⟨a, rfl, Or.inl rfl, strLt_irrefl _, by simp⟩
  | cons e es ih =>
    intro a
    rw [List.foldl_cons]
    cases hae : strLt a.1 e.1 with
    | true =>
      have hsel : select_later (some a) e = some e := by simp [select_later, hae]
      rw [hsel]
      obtain ⟨p, hfold, hmem, hge, hall⟩ := ih e
      refine ⟨p, hfold, ?_, ?_, ?_⟩
      · rcases hmem with rfl | h
        · exact Or.inr (List.mem_cons_self _ _)
        · exact Or.inr (List.mem_cons_of_mem e h)
      · exact strLt_asymm (strLt_lt_of_lt_of_nlt hae hge)
      · intro q hq
        rcases List.mem_cons.mp hq with rfl | h
        · exact hge
        · exact hall q h
    | false =>
      have hsel : select_later (some a) e = some a := by simp [select_later, hae]
      rw [hsel]
      obtain ⟨p, hfold, hmem, hge, hall⟩ := ih a
      refine ⟨p, hfold, ?_, hge, ?_⟩
      · rcases hmem with rfl | h
        · exact Or.inl rfl
        · exact Or.inr (List.mem_cons_of_mem e h)
      · intro q hq
        rcases List.mem_cons.mp hq with rfl | h
        · exact strLt_nlt_trans hge hae
        · exact hall q h

theorem latest_entry_spec (entries : List (String × Usage)) (p : String × Usage)
    (h : latest_entry entries = some p) :
    p ∈ entries ∧ ∀ q ∈ entries, strLt p.1 q.1 = false := by
  cases entries with
  | nil => simp [latest_entry] at h
  | cons e es =>
    unfold latest_entry at h
    rw [List.foldl_cons] at h
    have hsel : select_later none e = some e := rfl
    rw [hsel] at h
    obtain ⟨p', hfold, hmem, hge, hall⟩ := foldl_select_spec es e
    rw [hfold] at h
    injection h with h
    subst h
    constructor
    · rcases hmem with rfl | hm
      · exact List.mem_cons_self _ _
      · exact List.mem_cons_of_mem _ hm
    · intro q hq
      rcases List.mem_cons.mp hq with rfl | hm
      · exact hge
      · exact hall q hm

/-! ### Claim C3 -/

/-- C3: the context length the monitor computes equals the spec's
selection — skip side-chain entries, among the remaining ones take the
usage of the entry with the latest (truthy) timestamp, and sum that single
entry's three counters.  The second part makes the selection explicit:
whenever a latest candidate exists, the result is exactly that one
candidate's sum, the candidate is a main-chain usage-carrying entry of the
transcript, and no candidate (in particular no later side-chain entry,
which is not a candidate at all) has a strictly later timestamp. -/
theorem context_length_latest_main_chain :
    (∀ lines : List (Option Entry),
      get_context_length_from_transcript (some lines) = spec_context_length lines) ∧
    (∀ (lines : List (Option Entry)) (p : String × Usage),
      latest_entry (lines.filterMap valid_entry) = some p →
      p ∈ lines.filterMap valid_entry ∧
      get_context_length_from_transcript (some lines) = usage_total p.2 ∧
      ∀ q ∈ lines.filterMap valid_entry, strLt p.1 q.1 = false) := by
  refine ⟨context_length_code_eq_spec, ?_⟩
  intro lines p h
  obtain ⟨hmem, hmax⟩ := latest_entry_spec _ p h
  refine ⟨hmem, ?_, hmax⟩
  rw [context_length_code_eq_spec]
  unfold spec_context_length
  rw [h]

/-- Witness for C3 on a five-line transcript: the side-chain entry carries
both the largest usage and the latest timestamp yet is ignored; among the
main-chain entries the "2025-05" entry wins although it is not last in the
file; only its three counters are summed (100+40+9). -/
theorem context_length_latest_main_chain_witness :
    get_context_length_from_transcript (some
      [some ⟨true, some "2025-09", some ⟨999999, 0, 0⟩⟩,
       some ⟨false, some "2025-03", some ⟨10, 20, 30⟩⟩,
       some ⟨false, some "2025-05", some ⟨100, 40, 9⟩⟩,
       none,
       some ⟨false, some "2025-04", none⟩]) = 149 :=
  (context_length_latest_main_chain.2
    [some ⟨true, some "2025-09", some ⟨999999, 0, 0⟩⟩,
     some ⟨false, some "2025-03", some ⟨10, 20, 30⟩⟩,
     some ⟨false, some "2025-05", some ⟨100, 40, 9⟩⟩,
     none,
     some ⟨false, some "2025-04", none⟩]
    ("2025-05", ⟨100, 40, 9⟩) (by decide)).2.1

/-! ### Claim C8 -/

theorem foldl_scan_filter (lines : List (Option Entry)) :
    ∀ acc, lines.foldl scan acc = (lines.filter Option.isSome).foldl scan acc := by
  induction lines with
  | nil => intro acc; rfl
  | cons l ls ih =>
    intro acc
    cases l with
    | none => simp [List.filter_cons, scan_none, ih]
    | some e => simp [List.filter_cons, ih]

/-- C8: the monitor substitutes safe defaults instead of crashing — a
missing transcript yields 0; malformed (unparseable) lines are skipped
without affecting the result; a transcript with no parseable line yields
0; and a zero usage never emits a warning annotation and leaves both
flags untouched. -/
theorem monitor_safe_defaults :
    get_context_length_from_transcript none = 0 ∧
    (∀ lines : List (Option Entry),
      get_context_length_from_transcript (some lines) =
        get_context_length_from_transcript (some (lines.filter Option.isSome))) ∧
    (∀ lines : List (Option Entry), (∀ l ∈ lines, l = none) →
      get_context_length_from_transcript (some lines) = 0) ∧
    (∀ w75 w90 : Bool, context_warning_step 0 w75 w90 = ⟨"", w75, w90⟩) := by
  refine ⟨rfl, ?_, ?_, ?_⟩
  · intro lines
    simp only [get_context_length_from_transcript]
    rw [foldl_scan_filter lines (none, none)]
  · intro lines h
    have hnil : lines.filterMap valid_entry = [] := by
      rw [List.filterMap_eq_nil_iff]
      intro l hl
      rw [h l hl]
      rfl
    rw [context_length_code_eq_spec]
    unfold spec_context_length
    rw [hnil]
    rfl
  · intro w75 w90
    rfl

/-- Witness for C8: an all-malformed transcript reports zero usage. -/
theorem monitor_safe_defaults_witness :
    get_context_length_from_transcript (some [none, none, none]) = 0 :=
  monitor_safe_defaults.2.2.1 [none, none, none] (by decide)

/-! ### Claim C10 -/

/-- C10: an entry carrying usage but no truthy timestamp is never
selected: when every main-chain usage-carrying entry has an absent or
empty timestamp, the computed context length is 0 and the monitor emits
no warning and leaves the flags untouched, however large the reported
usage counters are. -/
theorem untimestamped_usage_never_selected (lines : List (Option Entry)) (w75 w90 : Bool)
    (h : ∀ e : Entry, some e ∈ lines → e.isSidechain = false → e.usage ≠ none →
      e.timestamp = none ∨ e.timestamp = some "") :
    get_context_length_from_transcript (some lines) = 0 ∧
    context_warning_step (get_context_length_from_transcript (some lines)) w75 w90 =
      ⟨"", w75, w90⟩ := by
  have hnil : lines.filterMap valid_entry = [] := by
    rw [List.filterMap_eq_nil_iff]
    intro l hl
    cases l with
    | none => rfl
    | some e =>
      unfold valid_entry
      cases hs : e.isSidechain with
      | true => simp [hs]
      | false =>
        cases hu : e.usage with
        | none => simp [hs, hu]
        | some u =>
          rcases h e hl hs (by simp [hu]) with ht | ht <;> simp [hs, hu, ht]
  have h0 : get_context_length_from_transcript (some lines) = 0 := by
    rw [context_length_code_eq_spec]
    unfold spec_context_length
    rw [hnil]
    rfl
  rw [h0]
  exact ⟨rfl, rfl⟩

/-- Witness for C10: a transcript whose only main-chain usage entries lack
a truthy timestamp (one absent, one empty) reports zero usage despite
large counters, and no warning fires. -/
theorem untimestamped_usage_never_selected_witness :
    get_context_length_from_transcript (some
      [some ⟨false, none, some ⟨999999, 0, 0⟩⟩,
       some ⟨false, some "", some ⟨123456, 0, 0⟩⟩,
       some ⟨true, some "2025-01-01", some ⟨777, 7, 7⟩⟩,
       none]) = 0 ∧
    context_warning_step (get_context_length_from_transcript (some
      [some ⟨false, none, some ⟨999999, 0, 0⟩⟩,
       some ⟨false, some "", some ⟨123456, 0, 0⟩⟩,
       some ⟨true, some "2025-01-01", some ⟨777, 7, 7⟩⟩,
       none])) false false = ⟨"", false, false⟩ :=
  untimestamped_usage_never_selected
    [some ⟨false, none, some ⟨999999, 0, 0⟩⟩,
     some ⟨false, some "", some ⟨123456, 0, 0⟩⟩,
     some ⟨true, some "2025-01-01", some ⟨777, 7, 7⟩⟩,
     none] false false
    (by
      intro e he hs hu
      simp at he
      rcases he with rfl | rfl | rfl
      · exact Or.inl rfl
      · exact Or.inr rfl
      · exact absurd hs (by decide))

/-! ### Claim C1 -/

/-- C1: any inbound message containing the case-sensitive token `STOP` or
`SILENCE` (i.e. satisfying `emergency_match`) leaves the persisted mode at
Discussion — whatever the mode before, whatever the configuration (in
particular for `/add-trigger` commands), and even when an implementation
trigger phrase also fired on the same message — and the emergency-stop
annotation is emitted into the output. -/
theorem emergency_stop_forces_discussion (prompt : String) (cfg : Config)
    (tr : Option (List (Option Entry))) (tik : Bool) (mode0 : Mode)
    (has_task : Bool) (w75 w90 : Bool)
    (h : emergency_match prompt = true) :
    (user_messages_hook prompt cfg tr tik mode0 has_task w75 w90).mode =
      Mode.discussion ∧
    (user_messages_hook prompt cfg tr tik mode0 has_task w75 w90).context =
      ultra_part prompt cfg ++ (warn_result tr tik w75 w90).text ++
        impl_part prompt cfg mode0 ++ EMERGENCY_MSG ++ topical_tail prompt cfg ++
        tips_part prompt cfg mode0 has_task := by
  constructor
  · rw [hook_mode_eq]
    unfold daic_mode_result
    simp [h]
  · rw [hook_context_eq]
    unfold emerg_part
    rw [h]
    simp

/-- Witness for C1 at the spec's own example message `"make it so, STOP"`,
which also fires the implementation trigger from Discussion mode. -/
theorem emergency_stop_forces_discussion_witness :
    emergency_match "make it so, STOP" = true ∧
    impl_fires "make it so, STOP" default_config Mode.discussion = true ∧
    ((user_messages_hook "make it so, STOP" default_config none false
        Mode.discussion false false false).mode = Mode.discussion ∧
      (user_messages_hook "make it so, STOP" default_config none false
          Mode.discussion false false false).context =
        ultra_part "make it so, STOP" default_config ++
          (warn_result none false false false).text ++
          impl_part "make it so, STOP" default_config Mode.discussion ++
          EMERGENCY_MSG ++ topical_tail "make it so, STOP" default_config ++
          tips_part "make it so, STOP" default_config Mode.discussion false) :=
  ⟨by decide, by decide,
    emergency_stop_forces_discussion "make it so, STOP" default_config none false
      Mode.discussion false false false (by decide)⟩

/-! ### Claim C2 -/

/-- C2: the implementation-trigger rule fires only in Discussion mode and
outside `/add-trigger` commands.  In Implementation mode the output never
contains the rule's contribution (the context decomposes without any
implementation annotation) and, unless the emergency rule fires, the mode
record is untouched; from Discussion mode with a matching phrase (and not
an `/add-trigger` command) the implementation annotation is emitted and,
unless the emergency rule overrides it, the persisted mode becomes
Implementation. -/
theorem impl_trigger_only_in_discussion :
    (∀ (prompt : String) (cfg : Config) (tr : Option (List (Option Entry)))
        (tik : Bool) (has_task : Bool) (w75 w90 : Bool),
      (user_messages_hook prompt cfg tr tik Mode.implementation has_task w75 w90).context =
        ultra_part prompt cfg ++ (warn_result tr tik w75 w90).text ++
          emerg_part prompt ++ topical_tail prompt cfg ++
          tips_part prompt cfg Mode.implementation has_task ∧
      (emergency_match prompt = false →
        (user_messages_hook prompt cfg tr tik Mode.implementation has_task w75 w90).mode =
          Mode.implementation)) ∧
    (∀ (prompt : String) (cfg : Config) (tr : Option (List (Option Entry)))
        (tik : Bool) (has_task : Bool) (w75 w90 : Bool),
      is_add_trigger_command prompt = false →
      trigger_match prompt cfg.trigger_phrases = true →
      (user_messages_hook prompt cfg tr tik Mode.discussion has_task w75 w90).context =
        ultra_part prompt cfg ++ (warn_result tr tik w75 w90).text ++
          IMPLEMENTATION_MSG ++ emerg_part prompt ++ topical_tail prompt cfg ++
          tips_part prompt cfg Mode.discussion has_task ∧
      (emergency_match prompt = false →
        (user_messages_hook prompt cfg tr tik Mode.discussion has_task w75 w90).mode =
          Mode.implementation)) := by
  constructor
  · intro prompt cfg tr tik has_task w75 w90
    constructor
    · rw [hook_context_eq]
      unfold impl_part
      rw [impl_fires_implementation]
      simp [str_append_empty]
    · intro hem
      rw [hook_mode_eq]
      unfold daic_mode_result
      rw [hem, impl_fires_implementation]
      rfl
  · intro prompt cfg tr tik has_task w75 w90 hadd htrig
    have hfires : impl_fires prompt cfg Mode.discussion = true := by
      unfold impl_fires check_daic_mode_bool
      simp [hadd, htrig]
    constructor
    · rw [hook_context_eq]
      unfold impl_part
      rw [hfires]
      simp
    · intro hem
      rw [hook_mode_eq]
      unfold daic_mode_result
      rw [hem, hfires]
      rfl

/-- Witness for C2: the default phrase `"make it so"` received in
Implementation mode adds no implementation annotation and keeps the mode;
the same message in Discussion mode emits the annotation and switches the
mode. -/
theorem impl_trigger_only_in_discussion_witness :
    ((user_messages_hook "make it so" default_config none false
        Mode.implementation false false false).context =
      ultra_part "make it so" default_config ++ (warn_result none false false false).text ++
        emerg_part "make it so" ++ topical_tail "make it so" default_config ++
        tips_part "make it so" default_config Mode.implementation false) ∧
    (user_messages_hook "make it so" default_config none false
        Mode.implementation false false false).mode = Mode.implementation ∧
    ((user_messages_hook "make it so" default_config none false
        Mode.discussion false false false).context =
      ultra_part "make it so" default_config ++ (warn_result none false false false).text ++
        IMPLEMENTATION_MSG ++ emerg_part "make it so" ++
        topical_tail "make it so" default_config ++
        tips_part "make it so" default_config Mode.discussion false) ∧
    (user_messages_hook "make it so" default_config none false
        Mode.discussion false false false).mode = Mode.implementation :=
  ⟨(impl_trigger_only_in_discussion.1 "make it so" default_config none false
      false false false).1,
    (impl_trigger_only_in_discussion.1 "make it so" default_config none false
      false false false).2 (by decide),
    (impl_trigger_only_in_discussion.2 "make it so" default_config none false
      false false false (by decide) (by decide)).1,
    (impl_trigger_only_in_discussion.2 "make it so" default_config none false
      false false false (by decide) (by decide)).2 (by decide)⟩

/-! ### Claim C5 -/

/-- C5 counterexample: the message `"hello"` matches no detection rule,
yet with the default configuration the hook's output is the ultrathink
preamble, not the empty string (the mode is indeed unchanged). -/
theorem no_match_output_nonempty_cex :
    (user_messages_hook "hello" default_config none false
        Mode.discussion false false false).context = ULTRATHINK ∧
    ULTRATHINK ≠ "" ∧
    (user_messages_hook "hello" default_config none false
        Mode.discussion false false false).mode = Mode.discussion :=
  ⟨by decide, by decide, by decide⟩

/-- C5 (amended): when no detection rule matches, the hook appends no rule
annotation: its output is exactly the unconditional ultrathink preamble
(present when API mode is off and the message is not an `/add-trigger`
command, empty otherwise), followed by whatever warning the context
monitor emits for the transcript, followed by whatever smart-suggestion
tips match the message; the persisted mode is unchanged and the warning
flags change exactly as the monitor alone dictates.  In particular, with
API mode on, no warning due and no tip matching, the output is the empty
string. -/
theorem no_match_yields_preamble_only (prompt : String) (cfg : Config)
    (tr : Option (List (Option Entry))) (tik : Bool)
    (mode0 : Mode) (has_task : Bool) (w75 w90 : Bool)
    (h1 : emergency_match prompt = false)
    (h2 : trigger_match prompt cfg.trigger_phrases = false)
    (h3 : iterloop_match prompt = false)
    (h4 : compaction_match prompt = false)
    (h5 : completion_match prompt = false)
    (h6 : creation_match prompt = false)
    (h7 : switching_match prompt = false)
    (h8 : task_mention_match prompt = false) :
    (user_messages_hook prompt cfg tr tik mode0 has_task w75 w90).context =
      ultra_part prompt cfg ++ (warn_result tr tik w75 w90).text ++
        tips_part prompt cfg mode0 has_task ∧
    (user_messages_hook prompt cfg tr tik mode0 has_task w75 w90).mode = mode0 ∧
    (user_messages_hook prompt cfg tr tik mode0 has_task w75 w90).warned75 =
      (warn_result tr tik w75 w90).warned75 ∧
    (user_messages_hook prompt cfg tr tik mode0 has_task w75 w90).warned90 =
      (warn_result tr tik w75 w90).warned90 ∧
    (cfg.api_mode = true → (warn_result tr tik w75 w90).text = "" →
      tips_part prompt cfg mode0 has_task = "" →
      (user_messages_hook prompt cfg tr tik mode0 has_task w75 w90).context = "") := by
  have hfires : impl_fires prompt cfg mode0 = false := by
    unfold impl_fires
    simp [h2]
  have hctx : (user_messages_hook prompt cfg tr tik mode0 has_task w75 w90).context =
      ultra_part prompt cfg ++ (warn_result tr tik w75 w90).text ++
        tips_part prompt cfg mode0 has_task := by
    rw [hook_context_eq]
    unfold impl_part emerg_part topical_tail iter_part compaction_part completion_part
      creation_part switching_part task_part
    rw [h1, h3, h4, h5, h6, h7, hfires]
    simp [h8, str_append_empty]
  refine ⟨hctx, ?_, ?_, ?_, ?_⟩
  · rw [hook_mode_eq]
    unfold daic_mode_result
    rw [h1, hfires]
    rfl
  · exact (hook_flags_eq prompt cfg tr tik mode0 has_task w75 w90).1
  · exact (hook_flags_eq prompt cfg tr tik mode0 has_task w75 w90).2
  · intro hapi hwarn htips
    rw [hctx, hwarn, htips]
    unfold ultra_part
    rw [hapi]
    rfl

/-- Witness for C5 (amended) on the match-free message `"hi there"`: once
received in Implementation mode under the default configuration (output is
the preamble alone: no warning with an absent transcript and no tip
matches), and once with API mode switched on, where the output is the
empty string. -/
theorem no_match_yields_preamble_only_witness :
    ((user_messages_hook "hi there" default_config none true
        Mode.implementation false false true).context =
      ultra_part "hi there" default_config ++ (warn_result none true false true).text ++
        tips_part "hi there" default_config Mode.implementation false ∧
      (user_messages_hook "hi there" default_config none true
        Mode.implementation false false true).mode = Mode.implementation) ∧
    (user_messages_hook "hi there" ⟨true, DEFAULT_TRIGGER_PHRASES, true, false⟩ none false
        Mode.discussion false false false).context = "" :=
  ⟨⟨(no_match_yields_preamble_only "hi there" default_config none true
        Mode.implementation false false true (by decide) (by decide) (by decide)
        (by decide) (by decide) (by decide) (by decide) (by decide)).1,
      (no_match_yields_preamble_only "hi there" default_config none true
        Mode.implementation false false true (by decide) (by decide) (by decide)
        (by decide) (by decide) (by decide) (by decide) (by decide)).2.1⟩,
    (no_match_yields_preamble_only "hi there" ⟨true, DEFAULT_TRIGGER_PHRASES, true, false⟩
        none false Mode.discussion false false false (by decide) (by decide) (by decide)
        (by decide) (by decide) (by decide) (by decide)
        (by decide)).2.2.2.2 (by decide) (by decide) (by decide)⟩

/-! ### Claim C6 -/

set_option maxRecDepth 100000 in
/-- C6 counterexample: on the message `"make it so STOP"` (which fires
both mode rules from Discussion mode) the implementation-trigger
annotation occurs strictly before the emergency-stop annotation in the
output, not after it as the claimed precedence order (emergency first)
requires. -/
theorem emergency_text_after_impl_text_cex :
    occursBefore IMPLEMENTATION_MSG EMERGENCY_MSG
      (user_messages_hook "make it so STOP" default_config none false
        Mode.discussion false false false).context = true ∧
    occursBefore EMERGENCY_MSG IMPLEMENTATION_MSG
      (user_messages_hook "make it so STOP" default_config none false
        Mode.discussion false false false).context = false :=
  ⟨by decide, by decide⟩

/-- C6 (amended): each rule is evaluated independently (later rules fire
even when an earlier one matched) and the annotations are concatenated in
the source's evaluation order: ultrathink preamble, context warning,
implementation trigger, emergency stop, iteration-loop directive, then the
topical detectors (compaction, completion, creation, switching,
task-mention), with the smart-suggestion tips appended after every rule
annotation.  In particular, when rules 1 and 2 both fire, the
implementation annotation precedes the emergency annotation. -/
theorem rule_output_concatenated_in_code_order (prompt : String) (cfg : Config)
    (tr : Option (List (Option Entry))) (tik : Bool) (mode0 : Mode)
    (has_task : Bool) (w75 w90 : Bool) :
    (user_messages_hook prompt cfg tr tik mode0 has_task w75 w90).context =
      ultra_part prompt cfg ++ (warn_result tr tik w75 w90).text ++
        impl_part prompt cfg mode0 ++ emerg_part prompt ++
        (iter_part prompt ++ compaction_part prompt ++ completion_part prompt ++
          creation_part prompt ++ switching_part prompt ++ task_part prompt cfg) ++
        tips_part prompt cfg mode0 has_task := by
  rw [hook_context_eq]
  unfold topical_tail
  rfl

/-! ### Claim C7 -/

/-- C7: the topical detectors are pure text injections — the mode record
after a hook run is fully determined by the emergency-stop rule (to
Discussion) and the implementation-trigger rule (to Implementation); no
topical match influences it. -/
theorem detectors_preserve_mode (prompt : String) (cfg : Config)
    (tr : Option (List (Option Entry))) (tik : Bool) (mode0 : Mode)
    (has_task : Bool) (w75 w90 : Bool) :
    (user_messages_hook prompt cfg tr tik mode0 has_task w75 w90).mode =
      (if emergency_match prompt then Mode.discussion
       else if impl_fires prompt cfg mode0 then Mode.implementation
       else mode0) := by
  rw [hook_mode_eq]
  unfold daic_mode_result
  rfl

/-! ### Claim C4 -/

theorem usable90_iff (cl : Nat) : 90 ≤ usable_percentage cl ↔ 144000 ≤ cl := by
  unfold usable_percentage
  rw [div_mul_eq_mul_div, le_div_iff₀ (by norm_num : (0:ℚ) < 160000)]
  constructor
  · intro h
    have h1 : (14400000 : ℚ) ≤ (cl : ℚ) * 100 := by linarith
    have h2 : (14400000 : ℕ) ≤ cl * 100 := by exact_mod_cast h1
    omega
  · intro h
    have h1 : (14400000 : ℕ) ≤ cl * 100 := by omega
    have h2 : (14400000 : ℚ) ≤ (cl : ℚ) * 100 := by exact_mod_cast h1
    linarith

theorem usable75_iff (cl : Nat) : 75 ≤ usable_percentage cl ↔ 120000 ≤ cl := by
  unfold usable_percentage
  rw [div_mul_eq_mul_div, le_div_iff₀ (by norm_num : (0:ℚ) < 160000)]
  constructor
  · intro h
    have h1 : (12000000 : ℚ) ≤ (cl : ℚ) * 100 := by linarith
    have h2 : (12000000 : ℕ) ≤ cl * 100 := by exact_mod_cast h1
    omega
  · intro h
    have h1 : (12000000 : ℕ) ≤ cl * 100 := by omega
    have h2 : (12000000 : ℚ) ≤ (cl : ℚ) * 100 := by exact_mod_cast h1
    linarith

/-- C4: the threshold warnings are one-shot per flag.  (a) whenever the
usable percentage reaches 90 and the 90-flag is unset, the monitor emits
the critical annotation naming the exact count and percentage and sets the
flag; (b) with the 90-flag set, the 90% annotation is never emitted again
and the flag stays set — so a second run on the same transcript cannot
repeat it; (c) symmetrically, with the 75-flag set, the 75% annotation is
never emitted again; (d) between 75% and 90% with both flags clear, the
softer warning is emitted and its flag set. -/
theorem context_warning_one_shot :
    (∀ (cl : Nat) (w75 : Bool), 90 ≤ usable_percentage cl →
      context_warning_step cl w75 false = ⟨warn90_text cl, w75, true⟩) ∧
    (∀ (cl : Nat) (w75 : Bool),
      (context_warning_step cl w75 true).text ≠ warn90_text cl ∧
      (context_warning_step cl w75 true).warned90 = true) ∧
    (∀ (cl : Nat) (w90 : Bool), (context_warning_step cl true w90).text ≠ warn75_text cl) ∧
    (∀ cl : Nat, 75 ≤ usable_percentage cl → ¬ 90 ≤ usable_percentage cl →
      context_warning_step cl false false = ⟨warn75_text cl, true, false⟩) := by
  refine ⟨?_, ?_, ?_, ?_⟩
  · intro cl w75 h
    have hcl : 144000 ≤ cl := (usable90_iff cl).mp h
    unfold context_warning_step
    rw [if_pos (by omega : 0 < cl), if_pos ⟨h, rfl⟩]
  · intro cl w75
    constructor
    · by_cases h0 : 0 < cl
      · unfold context_warning_step
        rw [if_pos h0, if_neg (by simp)]
        split
        · exact warn75_ne_warn90 cl cl
        · exact (warn90_ne_empty cl).symm
      · unfold context_warning_step
        rw [if_neg h0]
        exact (warn90_ne_empty cl).symm
    · by_cases h0 : 0 < cl
      · unfold context_warning_step
        rw [if_pos h0, if_neg (by simp)]
        split
        · rfl
        · rfl
      · unfold context_warning_step
        rw [if_neg h0]
  · intro cl w90
    by_cases h0 : 0 < cl
    · unfold context_warning_step
      rw [if_pos h0]
      split
      · exact (warn75_ne_warn90 cl cl).symm
      · rw [if_neg (by simp)]
        exact (warn75_ne_empty cl).symm
    · unfold context_warning_step
      rw [if_neg h0]
      exact (warn75_ne_empty cl).symm
  · intro cl h75 h90
    have hcl : 120000 ≤ cl := (usable75_iff cl).mp h75
    unfold context_warning_step
    rw [if_pos (by omega : 0 < cl), if_neg (by simp [h90]), if_pos ⟨h75, rfl⟩]

/-- Witness for C4 at the spec's scenario: a transcript whose latest
main-chain usage entry totals 150,000 tokens (93.75%).  The first run with
the flag clear emits the 90% warning and sets the flag; the second run,
with the flag now set, does not emit the 90% warning again. -/
theorem context_warning_one_shot_witness :
    context_warning_step 150000 false false = ⟨warn90_text 150000, false, true⟩ ∧
    (context_warning_step 150000 false true).text ≠ warn90_text 150000 ∧
    (context_warning_step 150000 false true).warned90 = true ∧
    get_context_length_from_transcript (some
      [some ⟨false, some "2025-01-01T00:00:01Z", some ⟨100000, 40000, 10000⟩⟩,
       some ⟨true, some "2025-01-01T00:00:02Z", some ⟨999999, 0, 0⟩⟩]) = 150000 :=
  ⟨context_warning_one_shot.1 150000 false ((usable90_iff 150000).mpr (by decide)),
    (context_warning_one_shot.2.1 150000 false).1,
    (context_warning_one_shot.2.1 150000 false).2,
    by decide⟩

/-! ### Claim C9 -/

theorem mem_of_head?_sort (ids completed : List String) (x : String)
    (h : next_incomplete_step ids completed = some x) :
    x ∈ ids ∧ completed.contains x = false := by
  unfold next_incomplete_step at h
  cases hs : sort_steps (ids.filter fun i => !completed.contains i) with
  | nil => rw [hs] at h; simp at h
  | cons y ys =>
    rw [hs] at h
    rw [List.head?_cons] at h
    injection h with h
    have hy : x ∈ sort_steps (ids.filter fun i => !completed.contains i) := by
      rw [hs, ← h]
      exact List.mem_cons_self _ _
    have hperm := List.perm_insertionSort step_le (ids.filter fun i => !completed.contains i)
    have hmem : x ∈ ids.filter fun i => !completed.contains i := hperm.mem_iff.mp hy
    have := List.mem_filter.mp hmem
    exact ⟨this.1, by simpa using this.2⟩

/-- C9: step ids are ordered numerically by dotted components, not as
strings: `"2.9" < "2.10"` in the dotted-tuple order while the string
order says the opposite; the sorting of steps and the next-incomplete-step
suggestion follow the dotted-tuple order (the suggestion after completing
step 1 of {1, 2, 2.1} is "2", and after completing "2.9" of {2.9, 2.10}
it is "2.10"); and every suggestion is an existing, not-yet-completed
step id. -/
theorem step_id_numeric_order :
    step_lt "2.9" "2.10" = true ∧
    strLt "2.10" "2.9" = true ∧
    sort_steps ["2.10", "2.9"] = ["2.9", "2.10"] ∧
    next_incomplete_step ["1", "2", "2.1"] ["1"] = some "2" ∧
    next_incomplete_step ["2.9", "2.10"] ["2.9"] = some "2.10" ∧
    (∀ (ids completed : List String) (x : String),
      next_incomplete_step ids completed = some x →
      x ∈ ids ∧ completed.contains x = false) :=
  ⟨by decide, by decide, by decide, by decide, by decide, mem_of_head?_sort⟩

/-- Witness for C9: the general next-step property applied to the spec's
scenario project {1, 2, 2.1} with step 1 completed. -/
theorem step_id_numeric_order_witness :
    ("2" ∈ ["1", "2", "2.1"] ∧ ["1"].contains "2" = false) :=
  step_id_numeric_order.2.2.2.2.2 ["1", "2", "2.1"] ["1"] "2" (by decide)

end CCSessions
